import Mathlib

/-!
Shallow embedding of the calibration model of `quantum_matter_lib`:

* `src/quantum_matter_lib/measurements/thermometry.py` — catalog-backed
  resistance→temperature conversion `temperature_ruo2`.
* `src/quantum_matter_lib/gui/thermometry_ui.py` — live-instrument path
  (`WorkerTempReading.get_T`), the edit window round trip and the LCD
  unit threshold.

Modelling conventions:

* Python floats are modelled as real numbers (`ℝ`); `np.log` / `np.exp`
  become `Real.log` / `Real.exp`.
* Python float division raises `ZeroDivisionError` exactly when the
  divisor equals `0.0`; the embedding makes that exception an explicit
  `Except` error before the division happens.
* A parsed JSON object with optional fields is modelled with `Option`
  fields; a Python `dict` used as a string-keyed mapping is modelled as
  an association list looked up with exact string equality, which is what
  `name in data` / `data[name]` do.
* The calibration file read by `temperature_ruo2` (a read-only `open` +
  `json.load`) is modelled by passing the parsed file content as an
  explicit argument.
-/

namespace QuantumMatterLib

/-- The distinct failure causes of the catalog-loading part of
`temperature_ruo2` (thermometry.py lines 43–52).  The code raises plain
Python exceptions; the three raise sites (plus the `KeyError` thrown by
`json.load(f)['ruo2']` when the family key is absent) are classified here
by the spec's taxonomy. -/
inductive CatalogError where
  /-- `json.load(f)['ruo2']` raised `KeyError` (key absent), or the value
  stored under `'ruo2'` is `null` (`data is None` → "Unable to parse data
  file."). -/
  | catalogUnreadable
  /-- `name` is not a key of the family mapping ("Resistance {name} does
  not exist in configuration file."). -/
  | sensorNotFound
  /-- The record exists but lacks `"R0"` or `"a"` ("The calibration for
  this resistance is not valid."). -/
  | invalidCalibration
  deriving DecidableEq

/-- A raw (unvalidated) calibration record as parsed from JSON: either
field may be missing, which is what `"R0" in r_data` / `"a" in r_data`
test. -/
structure RawRecord where
  R0 : Option ℝ
  a : Option (List ℝ)

/-- A validated calibration record: both fields present. -/
structure CalRecord where
  R0 : ℝ
  a : List ℝ

/-- The parsed content of `config/thermometry/resistance_calibration.json`
as far as `temperature_ruo2` inspects it.  `ruo2 = none` models the
top-level key `'ruo2'` being absent (indexing raises `KeyError`);
`ruo2 = some none` models `{"ruo2": null}` (then `data is None`);
`ruo2 = some (some fam)` models a family mapping, kept as an association
list with exact-string keys. -/
structure CatalogSource where
  ruo2 : Option (Option (List (String × RawRecord)))

/-- thermometry.py lines 43–52: load the `'ruo2'` family, look `name` up
with exact string equality, and check that both `"R0"` and `"a"` are
present.  No other validation is performed. -/
def load_ruo2 (src : CatalogSource) (name : String) :
    Except CatalogError CalRecord :=
  match src.ruo2 with
  | none => .error .catalogUnreadable
  | some none => .error .catalogUnreadable
  | some (some data) =>
    match data.lookup name with
    | none => .error .sensorNotFound
    | some r_data =>
      match r_data.R0, r_data.a with
      | some r0, some a => .ok ⟨r0, a⟩
      | some _, none => .error .invalidCalibration
      | none, _ => .error .invalidCalibration

/-- thermometry.py lines 56–58: `sum = 0; for i in range(len(a)):
sum += a[i] * l_r ** i`. -/
def poly_sum (a : List ℝ) (x : ℝ) : ℝ :=
  (List.range a.length).foldl (fun s i => s + a.getD i 0 * x ^ i) 0

/-- thermometry.py `temperature_ruo2` (lines 43–59): load and validate the
record for `name`, then return `1 / exp(Σ_i a_i · ln(resistance − R0)^i)`.
There is no domain check on `resistance - R0`. -/
noncomputable def temperature_ruo2 (src : CatalogSource) (resistance : ℝ)
    (name : String) : Except CatalogError ℝ :=
  match load_ruo2 src name with
  | .error e => .error e
  | .ok rd =>
    let l_r := Real.log (resistance - rd.R0)
    .ok (1 / Real.exp (poly_sum rd.a l_r))

/-- Folding `fun s i => s + f i` over `List.range n` is the `Finset.range`
sum. -/
theorem foldl_add_range (f : ℕ → ℝ) (n : ℕ) (s : ℝ) :
    (List.range n).foldl (fun acc i => acc + f i) s
      = s + ∑ i in Finset.range n, f i := by
  induction n generalizing s with
  | zero => simp
  | succ n ih =>
    rw [List.range_succ, List.foldl_append, ih, List.foldl_cons,
      List.foldl_nil, Finset.sum_range_succ, add_assoc]

/-- `poly_sum` computes the polynomial `Σ_{i<len a} a_i · x^i`. -/
theorem poly_sum_eq_sum (a : List ℝ) (x : ℝ) :
    poly_sum a x = ∑ i in Finset.range a.length, a.getD i 0 * x ^ i := by
  rw [poly_sum, foldl_add_range, zero_add]

/-- The live-configuration record of thermometry_ui.py: the flat dict
stored in `config.json`, with keys `bias_resistance`, `lockin_voltage`,
`R0`, `a0`…`a5`. -/
structure LiveConfig where
  bias_resistance : ℝ
  lockin_voltage : ℝ
  R0 : ℝ
  a0 : ℝ
  a1 : ℝ
  a2 : ℝ
  a3 : ℝ
  a4 : ℝ
  a5 : ℝ

/-- `self.config[f"a{i}"]` for `i` in `range(6)`. -/
def LiveConfig.coeff (c : LiveConfig) : ℕ → ℝ
  | 0 => c.a0
  | 1 => c.a1
  | 2 => c.a2
  | 3 => c.a3
  | 4 => c.a4
  | 5 => c.a5
  | _ => 0

/-- The failure of the live path: Python raises `ZeroDivisionError` when a
float division has divisor `0.0`. -/
inductive UiError where
  | divisionError
  deriving DecidableEq

/-- thermometry_ui.py lines 60–62: `sum = 0; for i in range(6):
sum += self.config[f"a{i}"] * l_r ** i`. -/
def ui_poly_sum (c : LiveConfig) (x : ℝ) : ℝ :=
  (List.range 6).foldl (fun s i => s + c.coeff i * x ^ i) 0

/-- `WorkerTempReading.get_T` (thermometry_ui.py lines 55–63).
`lockin_x` is the instrument reading `self.lockin.x` and `lockin_sine`
is the instrument reading `self.lockin.sine_voltage`.  The excitation
current is `i = lockin_sine / config["bias_resistance"]` and the
resistance is `r = lockin_x / i`; either division raises
`ZeroDivisionError` when its divisor is `0.0`, modelled as the explicit
`divisionError` branches.  Note that the config field `lockin_voltage`
is not read here: the output voltage comes from the instrument. -/
noncomputable def get_T (config : LiveConfig) (lockin_x lockin_sine : ℝ) :
    Except UiError ℝ :=
  if config.bias_resistance = 0 then .error .divisionError
  else
    let i := lockin_sine / config.bias_resistance
    if i = 0 then .error .divisionError
    else
      let r := lockin_x / i
      let l_r := Real.log (r - config.R0)
      .ok (1 / Real.exp (ui_poly_sum config l_r))

/-- thermometry_ui.py lines 40–50: the default configuration written to
`config.json` on first start. -/
noncomputable def CONFIG_DEFAULT : LiveConfig :=
  { bias_resistance := 1e6
    lockin_voltage := 4e-3
    R0 := 2150.0
    a0 := 0, a1 := 0, a2 := 0, a3 := 0, a4 := 0, a5 := 0 }

/-- The numeric contents of the `EditWindow` text fields.  Python's
`str`/`float` round-trips a binary64 float exactly, so a text field is
modelled by the real number it denotes. -/
structure EditFields where
  resistance : ℝ
  voltage : ℝ
  r0 : ℝ
  c0 : ℝ
  c1 : ℝ
  c2 : ℝ
  c3 : ℝ
  c4 : ℝ
  c5 : ℝ

/-- `EditWindow.__init__`, lines 275–282: load the configuration record
and populate the text fields (`setText(str(...))`). -/
def editWindow_load (cfg : LiveConfig) : EditFields :=
  { resistance := cfg.bias_resistance
    voltage := cfg.lockin_voltage
    r0 := cfg.R0
    c0 := cfg.a0, c1 := cfg.a1, c2 := cfg.a2
    c3 := cfg.a3, c4 := cfg.a4, c5 := cfg.a5 }

/-- `EditWindow.save_slot`, lines 287–305: parse every text field with
`float(...)`, assemble the flat record and write it to `config.json`
(`json.dump` / `json.load` round-trips binary64 floats exactly, so the
saved record is the value written). -/
def save_slot (f : EditFields) : LiveConfig :=
  { bias_resistance := f.resistance
    lockin_voltage := f.voltage
    a0 := f.c0, a1 := f.c1, a2 := f.c2
    a3 := f.c3, a4 := f.c4, a5 := f.c5
    R0 := f.r0 }

/-- The observable result of `MainWindow.update_LCD` (lines 199–208): the
number shown on the `QLCDNumber` and the unit label text. -/
structure LCDState where
  display : ℝ
  unit : String

/-- `MainWindow.update_LCD` (thermometry_ui.py lines 199–208): values
`>= 1` are shown unchanged with unit `"K"`, values `< 1` are shown
multiplied by `1e3` with unit `"mK"`. -/
noncomputable def update_LCD (value : ℝ) : LCDState :=
  if 1 ≤ value then ⟨value, "K"⟩ else ⟨value * 1e3, "mK"⟩

/-- Both polynomial loops: the catalog loop over a six-element coefficient
list is the same computation as the live loop over `a0 … a5`. -/
theorem poly_sum_six (c : LiveConfig) (x : ℝ) :
    poly_sum [c.a0, c.a1, c.a2, c.a3, c.a4, c.a5] x = ui_poly_sum c x := rfl

/-- `ui_poly_sum` computes the polynomial `Σ_{i<6} aᵢ · x^i`. -/
theorem ui_poly_sum_eq_sum (c : LiveConfig) (x : ℝ) :
    ui_poly_sum c x = ∑ i in Finset.range 6, c.coeff i * x ^ i := by
  rw [ui_poly_sum, foldl_add_range, zero_add]

/-- Loading succeeds exactly on a present record with both fields. -/
theorem load_ruo2_ok (src : CatalogSource) (name : String)
    (data : List (String × RawRecord)) (r0 : ℝ) (a : List ℝ)
    (hsrc : src.ruo2 = some (some data))
    (hlook : data.lookup name = some ⟨some r0, some a⟩) :
    load_ruo2 src name = .ok ⟨r0, a⟩ := by
  simp only [load_ruo2, hsrc, hlook]

/-- C1: for every catalog whose `ruo2` family maps `name` to a record with
reference resistance `R0` and non-empty coefficients `a`, and every
resistance `r > R0`, `temperature_ruo2` returns
`1 / exp (Σ_{i=0}^{n} aᵢ · ln(r − R0)^i)`; in particular a record with
coefficients `[0]` yields temperature `1`. -/
theorem temperature_ruo2_poly_formula
    (src : CatalogSource) (name : String)
    (data : List (String × RawRecord)) (r0 : ℝ) (a : List ℝ) (r : ℝ)
    (hsrc : src.ruo2 = some (some data))
    (hlook : data.lookup name = some ⟨some r0, some a⟩)
    (hne : a ≠ []) (hgt : r > r0) :
    temperature_ruo2 src r name
      = .ok (1 / Real.exp (∑ i in Finset.range a.length,
          a.getD i 0 * Real.log (r - r0) ^ i))
    ∧ (a = [0] → temperature_ruo2 src r name = .ok 1) := by
  have hload := load_ruo2_ok src name data r0 a hsrc hlook
  have hmain : temperature_ruo2 src r name
      = .ok (1 / Real.exp (poly_sum a (Real.log (r - r0)))) := by
    simp only [temperature_ruo2, hload]
  refine ⟨by rw [hmain, poly_sum_eq_sum], fun h0 => ?_⟩
  subst h0
  rw [hmain]
  norm_num [poly_sum, Real.exp_zero]

/-- Witness for C1 at a concrete catalog: the record `{R0 = 2200, a = [0]}`
looked up under `"s"` at resistance `3000 > 2200` gives temperature `1`. -/
theorem temperature_ruo2_poly_formula_witness :
    temperature_ruo2 ⟨some (some [("s", ⟨some 2200, some [0]⟩)])⟩ 3000 "s"
      = .ok 1 :=
  (temperature_ruo2_poly_formula ⟨some (some [("s", ⟨some 2200, some [0]⟩)])⟩
    "s" [("s", ⟨some 2200, some [0]⟩)] 2200 [0] 3000 rfl rfl
    (by simp) (by norm_num)).2 rfl

/-- C2 counterexample: the code performs no domain check.  At
`resistance = R0 = 2200` (so `resistance ≤ R0`) with coefficients `[0]`,
`temperature_ruo2` does not fail with any error: it silently returns the
value `1.0` (Python: `np.log(0.0) = -inf`, `(-inf)**0 = 1.0`, so the sum
is `0.0` and `1/exp(0.0) = 1.0`). -/
theorem temperature_ruo2_no_domain_check_cex :
    temperature_ruo2 ⟨some (some [("x", ⟨some 2200, some [0]⟩)])⟩ 2200 "x"
      = .ok 1
    ∧ ¬ ((2200 : ℝ) > 2200) := by
  constructor
  · simp [temperature_ruo2, load_ruo2, poly_sum, List.lookup]
  · norm_num

/-- C2 amended: for `resistance ≤ R0` the conversion raises no error and
returns a value; with a single-coefficient record `[c]` the returned value
is exactly `1 / exp c` (the `i = 0` term is `c · x⁰ = c` even for the
floating-point `nan`/`-inf` logarithm, since `nan ** 0 = 1.0`), so a
`DomainError` is never surfaced and NaN (for longer coefficient lists)
propagates silently. -/
theorem temperature_ruo2_below_R0_no_error
    (src : CatalogSource) (name : String)
    (data : List (String × RawRecord)) (r0 c r : ℝ)
    (hsrc : src.ruo2 = some (some data))
    (hlook : data.lookup name = some ⟨some r0, some [c]⟩)
    (hle : r ≤ r0) :
    temperature_ruo2 src r name = .ok (1 / Real.exp c) := by
  have hload := load_ruo2_ok src name data r0 [c] hsrc hlook
  have hps : poly_sum [c] (Real.log (r - r0)) = c := by
    rw [poly_sum_eq_sum]
    simp
  simp only [temperature_ruo2, hload, hps]

/-- Witness for C2's amended theorem: `{R0 = 2200, a = [0]}` at
`resistance = 2100 ≤ 2200` returns `1 / exp 0 = 1`. -/
theorem temperature_ruo2_below_R0_no_error_witness :
    temperature_ruo2 ⟨some (some [("x", ⟨some 2200, some [0]⟩)])⟩ 2100 "x"
      = .ok (1 / Real.exp 0) :=
  temperature_ruo2_below_R0_no_error _ "x" _ 2200 0 2100 rfl rfl (by norm_num)

/-- C3: the catalog-backed path and the live-instrument path perform the
identical polynomial evaluation: for every `R0`, every length-6
coefficient sequence and every resistance `r > R0`, a catalog record and
a live configuration holding the same `(R0, a0…a5)` produce the same
temperature — whenever the instrument readings derive that same
resistance `r`. -/
theorem catalog_and_live_paths_agree
    (src : CatalogSource) (name : String)
    (data : List (String × RawRecord)) (cfg : LiveConfig) (v sv r : ℝ)
    (hsrc : src.ruo2 = some (some data))
    (hlook : data.lookup name
      = some ⟨some cfg.R0, some [cfg.a0, cfg.a1, cfg.a2, cfg.a3, cfg.a4, cfg.a5]⟩)
    (hb : cfg.bias_resistance ≠ 0)
    (hi : sv / cfg.bias_resistance ≠ 0)
    (hr : v / (sv / cfg.bias_resistance) = r)
    (hgt : r > cfg.R0) :
    ∃ t, temperature_ruo2 src r name = .ok t ∧ get_T cfg v sv = .ok t := by
  have hload := load_ruo2_ok src name data cfg.R0
    [cfg.a0, cfg.a1, cfg.a2, cfg.a3, cfg.a4, cfg.a5] hsrc hlook
  refine ⟨1 / Real.exp (ui_poly_sum cfg (Real.log (r - cfg.R0))), ?_, ?_⟩
  · simp only [temperature_ruo2, hload, poly_sum_six]
  · simp only [get_T, if_neg hb, if_neg hi, hr]

/-- Witness for C3: record `{R0 = 0, a = [0,0,0,0,0,0]}` under `"s"`,
configuration `(bias 1, R0 0, all coefficients 0)`, instrument readings
`x = 6`, `sine_voltage = 2`: the derived resistance is `6/(2/1) = 3 > 0`
and both paths return the same temperature. -/
theorem catalog_and_live_paths_agree_witness :
    ∃ t, temperature_ruo2
        ⟨some (some [("s", ⟨some 0, some [0, 0, 0, 0, 0, 0]⟩)])⟩ 3 "s" = .ok t
      ∧ get_T ⟨1, 4, 0, 0, 0, 0, 0, 0, 0⟩ 6 2 = .ok t :=
  catalog_and_live_paths_agree
    ⟨some (some [("s", ⟨some 0, some [0, 0, 0, 0, 0, 0]⟩)])⟩ "s"
    [("s", ⟨some 0, some [0, 0, 0, 0, 0, 0]⟩)] ⟨1, 4, 0, 0, 0, 0, 0, 0, 0⟩
    6 2 3 rfl rfl (by norm_num) (by norm_num) (by norm_num) (by norm_num)

/-- C4: the three loading failures are distinct and match their causes:
an absent or null top-level `'ruo2'` key gives `catalogUnreadable`; a
name that is not a key of the family mapping gives `sensorNotFound`
(lookup is exact-string: concretely, `" Sensor A"` and `"sensor a"` miss
the stored key `"Sensor A"`); a present record missing `R0` or the
coefficients field gives `invalidCalibration`. -/
theorem load_ruo2_error_kinds (src : CatalogSource) (name : String) :
    (src.ruo2 = none → load_ruo2 src name = .error .catalogUnreadable)
    ∧ (src.ruo2 = some none → load_ruo2 src name = .error .catalogUnreadable)
    ∧ (∀ data, src.ruo2 = some (some data) → data.lookup name = none →
        load_ruo2 src name = .error .sensorNotFound)
    ∧ (∀ data rd, src.ruo2 = some (some data) → data.lookup name = some rd →
        rd.R0 = none ∨ rd.a = none →
        load_ruo2 src name = .error .invalidCalibration)
    ∧ load_ruo2 ⟨some (some [("Sensor A", ⟨some 2000, some [1]⟩)])⟩ " Sensor A"
        = .error .sensorNotFound
    ∧ load_ruo2 ⟨some (some [("Sensor A", ⟨some 2000, some [1]⟩)])⟩ "sensor a"
        = .error .sensorNotFound := by
  refine ⟨fun h => ?_, fun h => ?_, fun data h hl => ?_,
    fun data rd h hl hmiss => ?_, rfl, rfl⟩
  · simp only [load_ruo2, h]
  · simp only [load_ruo2, h]
  · simp only [load_ruo2, h, hl]
  · obtain ⟨oR0, oa⟩ := rd
    rcases hmiss with hmiss | hmiss
    · subst hmiss
      simp only [load_ruo2, h, hl]
    · subst hmiss
      rcases oR0 with _ | r0 <;> simp only [load_ruo2, h, hl]

/-- Witness for C4 at concrete catalogs: every error kind is hit. -/
theorem load_ruo2_error_kinds_witness :
    load_ruo2 ⟨none⟩ "s" = .error .catalogUnreadable
    ∧ load_ruo2 ⟨some none⟩ "s" = .error .catalogUnreadable
    ∧ load_ruo2 ⟨some (some [])⟩ "s" = .error .sensorNotFound
    ∧ load_ruo2 ⟨some (some [("s", ⟨none, some [1]⟩)])⟩ "s"
        = .error .invalidCalibration :=
  ⟨(load_ruo2_error_kinds ⟨none⟩ "s").1 rfl,
   (load_ruo2_error_kinds ⟨some none⟩ "s").2.1 rfl,
   (load_ruo2_error_kinds ⟨some (some [])⟩ "s").2.2.1 [] rfl rfl,
   (load_ruo2_error_kinds ⟨some (some [("s", ⟨none, some [1]⟩)])⟩ "s").2.2.2.1
     [("s", ⟨none, some [1]⟩)] ⟨none, some [1]⟩ rfl rfl (Or.inl rfl)⟩

/-- C5 counterexample: the code checks only that `"R0"` and `"a"` are
present, not that the coefficients are non-empty — a record with an
empty coefficients sequence is returned successfully. -/
theorem load_ruo2_empty_coefficients_cex :
    load_ruo2 ⟨some (some [("e", ⟨some 2000, some ([] : List ℝ)⟩)])⟩ "e"
      = .ok ⟨2000, ([] : List ℝ)⟩ := rfl

/-- C5 amended: whenever loading succeeds, both fields were present in the
stored record and are returned verbatim — but the coefficients sequence
may be empty (emptiness is not validated). -/
theorem load_ruo2_success_fields_present (src : CatalogSource)
    (name : String) (rec : CalRecord)
    (h : load_ruo2 src name = .ok rec) :
    ∃ data rd, src.ruo2 = some (some data) ∧ data.lookup name = some rd
      ∧ rd.R0 = some rec.R0 ∧ rd.a = some rec.a := by
  obtain ⟨o⟩ := src
  rcases o with _ | o
  · exact absurd h (by simp [load_ruo2])
  rcases o with _ | data
  · exact absurd h (by simp [load_ruo2])
  rcases hl : data.lookup name with _ | rd
  · rw [load_ruo2] at h
    simp only [hl] at h
    exact absurd h (by simp)
  obtain ⟨oR0, oa⟩ := rd
  rcases oR0 with _ | r0
  · rw [load_ruo2] at h
    simp only [hl] at h
    exact absurd h (by simp)
  rcases oa with _ | a
  · rw [load_ruo2] at h
    simp only [hl] at h
    exact absurd h (by simp)
  rw [load_ruo2] at h
  simp only [hl, Except.ok.injEq] at h
  exact ⟨data, ⟨some r0, some a⟩, rfl, hl, by rw [← h], by rw [← h]⟩

/-- Witness for C5's amended theorem at the empty-coefficients record. -/
theorem load_ruo2_success_fields_present_witness :
    ∃ data rd,
      (⟨some (some [("e", ⟨some 2000, some ([] : List ℝ)⟩)])⟩ :
        CatalogSource).ruo2 = some (some data)
      ∧ data.lookup "e" = some rd
      ∧ rd.R0 = some (⟨2000, ([] : List ℝ)⟩ : CalRecord).R0
      ∧ rd.a = some (⟨2000, ([] : List ℝ)⟩ : CalRecord).a :=
  load_ruo2_success_fields_present
    ⟨some (some [("e", ⟨some 2000, some ([] : List ℝ)⟩)])⟩ "e"
    ⟨2000, ([] : List ℝ)⟩ rfl

/-- The live conversion as the spec's words describe it, for comparison
with `get_T`: the excitation current is computed from the two
configuration fields `lockin_voltage / bias_resistance` ("both supplied
via a mutable configuration structure"), so the instrument supplies only
the measured voltage `lockin_x`. -/
noncomputable def get_T_specWords (config : LiveConfig) (lockin_x : ℝ) :
    Except UiError ℝ :=
  if config.bias_resistance = 0 then .error .divisionError
  else
    let i := config.lockin_voltage / config.bias_resistance
    if i = 0 then .error .divisionError
    else
      let r := lockin_x / i
      let l_r := Real.log (r - config.R0)
      .ok (1 / Real.exp (ui_poly_sum config l_r))

/-- On non-zero divisors `get_T` returns the polynomial conversion of the
derived resistance `lockin_x / (lockin_sine / bias_resistance)`. -/
theorem get_T_ok (cfg : LiveConfig) (v sv : ℝ)
    (hb : cfg.bias_resistance ≠ 0) (hi : sv / cfg.bias_resistance ≠ 0) :
    get_T cfg v sv = .ok (1 / Real.exp (ui_poly_sum cfg
      (Real.log (v / (sv / cfg.bias_resistance) - cfg.R0)))) := by
  simp only [get_T, if_neg hb, if_neg hi]

/-- Same computation for the spec-worded variant. -/
theorem get_T_specWords_ok (cfg : LiveConfig) (v : ℝ)
    (hb : cfg.bias_resistance ≠ 0)
    (hi : cfg.lockin_voltage / cfg.bias_resistance ≠ 0) :
    get_T_specWords cfg v = .ok (1 / Real.exp (ui_poly_sum cfg
      (Real.log (v / (cfg.lockin_voltage / cfg.bias_resistance) - cfg.R0)))) := by
  simp only [get_T_specWords, if_neg hb, if_neg hi]

/-- C6 counterexample: `get_T` reads the lockin output voltage from the
instrument (`self.lockin.sine_voltage`), not from the configuration's
`lockin_voltage` field.  With configuration `(bias 1, lockin_voltage 4,
R0 0, a1 = 1, other coefficients 0)`, measured voltage `x = 3` and
instrument sine output `2`, the code returns `2/3` (resistance
`3/(2/1) = 3/2`), while the spec's formula — excitation current
`4/1 = 4` taken from the configuration — gives `4/3`. -/
theorem get_T_reads_instrument_voltage_cex :
    get_T ⟨1, 4, 0, 0, 1, 0, 0, 0, 0⟩ 3 2 = .ok (2 / 3)
    ∧ get_T_specWords ⟨1, 4, 0, 0, 1, 0, 0, 0, 0⟩ 3 = .ok (4 / 3)
    ∧ ((2 : ℝ) / 3 ≠ 4 / 3) := by
  have hs : ∀ x : ℝ, ui_poly_sum ⟨1, 4, 0, 0, 1, 0, 0, 0, 0⟩ x = x := by
    intro x
    rw [ui_poly_sum_eq_sum]
    norm_num [Finset.sum_range_succ, LiveConfig.coeff]
  refine ⟨?_, ?_, by norm_num⟩
  · rw [get_T_ok _ 3 2 (by norm_num) (by norm_num)]
    norm_num [hs, Real.exp_log (show (0 : ℝ) < 3 / 2 by norm_num)]
  · rw [get_T_specWords_ok _ 3 (by norm_num) (by norm_num)]
    norm_num [hs, Real.exp_log (show (0 : ℝ) < 3 / 4 by norm_num)]

/-- C6 amended: `get_T` derives `resistance = lockin_x / i` with
`i = lockin_sine / bias_resistance`, where the output voltage
`lockin_sine` is read from the instrument at call time while
`bias_resistance`, `R0` and the six coefficients come from the
configuration passed in (the configuration current at call time), and
applies the fixed 6-coefficient polynomial conversion; in particular,
with `CONFIG_DEFAULT` (`R0 = 2150`, all six coefficients zero) and
readings deriving resistance `3000`, it returns `1.0`. -/
theorem get_T_formula_and_default (cfg : LiveConfig) (v sv : ℝ)
    (hb : cfg.bias_resistance ≠ 0) (hi : sv / cfg.bias_resistance ≠ 0) :
    get_T cfg v sv
      = .ok (1 / Real.exp (∑ i in Finset.range 6,
          cfg.coeff i * Real.log (v / (sv / cfg.bias_resistance) - cfg.R0) ^ i))
    ∧ get_T CONFIG_DEFAULT (3000 * (4e-3 / 1e6)) 4e-3 = .ok 1 := by
  constructor
  · rw [get_T_ok cfg v sv hb hi, ui_poly_sum_eq_sum]
  · rw [get_T_ok CONFIG_DEFAULT _ _ (by norm_num [CONFIG_DEFAULT])
      (by norm_num [CONFIG_DEFAULT])]
    have hz : ∀ x : ℝ, ui_poly_sum CONFIG_DEFAULT x = 0 := by
      intro x
      rw [ui_poly_sum_eq_sum]
      norm_num [Finset.sum_range_succ, LiveConfig.coeff, CONFIG_DEFAULT]
    norm_num [hz, Real.exp_zero]

/-- Witness for C6's amended theorem: instantiated at `(bias 1, sine 1,
x 1)` and exposing the concrete `CONFIG_DEFAULT` instance. -/
theorem get_T_formula_and_default_witness :
    get_T CONFIG_DEFAULT (3000 * (4e-3 / 1e6)) 4e-3 = .ok 1 :=
  (get_T_formula_and_default ⟨1, 1, 0, 0, 0, 0, 0, 0, 0⟩ 1 1
    (by norm_num) (by norm_num)).2

/-- C7: whenever the derived excitation current
`lockin_sine / bias_resistance` equals zero (including the case of a zero
bias resistance, where the very derivation already divides by `0.0`),
`get_T` fails with the division error instead of returning a value —
Python raises `ZeroDivisionError` from `r = v/i`. -/
theorem get_T_zero_excitation_division_error (cfg : LiveConfig) (v sv : ℝ)
    (h : sv / cfg.bias_resistance = 0) :
    get_T cfg v sv = .error .divisionError := by
  by_cases hb : cfg.bias_resistance = 0
  · simp only [get_T, if_pos hb]
  · simp only [get_T, if_neg hb, if_pos h]

/-- Witness for C7: sine output `0` over bias `1e6` gives excitation
current `0` and the division error. -/
theorem get_T_zero_excitation_division_error_witness :
    get_T ⟨1e6, 4e-3, 2150, 0, 0, 0, 0, 0, 0⟩ 5 0 = .error .divisionError :=
  get_T_zero_excitation_division_error ⟨1e6, 4e-3, 2150, 0, 0, 0, 0, 0, 0⟩
    5 0 (by norm_num)

/-- C8: the conversion is a deterministic pure function of its inputs.
In this embedding the calibration file content read by the function is
the explicit `src` argument (the only I/O of the Python function is that
read-only load) and the result is a plain value, so two invocations on
equal resistance and equal calibration data give equal temperatures and
no state is touched. -/
theorem temperature_ruo2_deterministic (src src' : CatalogSource)
    (r r' : ℝ) (name name' : String)
    (h1 : src = src') (h2 : r = r') (h3 : name = name') :
    temperature_ruo2 src r name = temperature_ruo2 src' r' name' := by
  rw [h1, h2, h3]

/-- Witness for C8 at concrete equal inputs. -/
theorem temperature_ruo2_deterministic_witness :
    temperature_ruo2 ⟨some (some [("s", ⟨some 2200, some [0]⟩)])⟩ 3000 "s"
      = temperature_ruo2 ⟨some (some [("s", ⟨some 2200, some [0]⟩)])⟩ 3000 "s" :=
  temperature_ruo2_deterministic
    ⟨some (some [("s", ⟨some 2200, some [0]⟩)])⟩
    ⟨some (some [("s", ⟨some 2200, some [0]⟩)])⟩ 3000 3000 "s" "s" rfl rfl rfl

/-- C9: round-trip of the live configuration record through the edit
window.  `save_slot` parses the nine text fields and writes the flat
record; `EditWindow.__init__` reads the record back and repopulates the
nine text fields.  Both composites are the identity, field for field
(Python's `str`/`float` and `json.dump`/`json.load` round-trip binary64
floats exactly, so the text encoding is value-preserving). -/
theorem config_roundtrip :
    (∀ f : EditFields, editWindow_load (save_slot f) = f)
    ∧ (∀ cfg : LiveConfig, save_slot (editWindow_load cfg) = cfg) :=
  ⟨fun _ => rfl, fun _ => rfl⟩

/-- Witness for C9 at the default configuration. -/
theorem config_roundtrip_witness :
    save_slot (editWindow_load CONFIG_DEFAULT) = CONFIG_DEFAULT :=
  config_roundtrip.2 CONFIG_DEFAULT

/-- C10: the display update shows `v` unchanged with unit `"K"` when
`v ≥ 1`, and `v · 1000` with unit `"mK"` when `v < 1`; at the boundary,
`1.0` renders as `1.0 K` and `0.999` as `999.0 mK`. -/
theorem update_LCD_threshold (v : ℝ) :
    (1 ≤ v → update_LCD v = ⟨v, "K"⟩)
    ∧ (v < 1 → update_LCD v = ⟨v * 1000, "mK"⟩)
    ∧ update_LCD 1 = ⟨1, "K"⟩
    ∧ update_LCD 0.999 = ⟨999, "mK"⟩ := by
  refine ⟨fun h => ?_, fun h => ?_, ?_, ?_⟩
  · rw [update_LCD, if_pos h]
  · rw [update_LCD, if_neg (not_le.mpr h)]
    norm_num
  · norm_num [update_LCD]
  · norm_num [update_LCD]

/-- Witness for C10: both branches and both boundary renderings at
concrete temperatures. -/
theorem update_LCD_threshold_witness :
    update_LCD 2 = ⟨2, "K"⟩
    ∧ update_LCD 0.5 = ⟨500, "mK"⟩
    ∧ update_LCD 1 = ⟨1, "K"⟩
    ∧ update_LCD 0.999 = ⟨999, "mK"⟩ :=
  ⟨(update_LCD_threshold 2).1 (by norm_num),
   by
    have h := (update_LCD_threshold 0.5).2.1 (by norm_num)
    rw [h]
    norm_num,
   (update_LCD_threshold 1).2.2.1,
   (update_LCD_threshold 1).2.2.2⟩

end QuantumMatterLib
